import Mathlib

/-!
Shallow embedding of `src/tempest_weather.py` (Tempest Weather Station
WebSocket client).

Modelling conventions:

* JSON numbers (possibly fractional, possibly `null`) that occur inside the
  positional payload arrays are modelled as `Option ℚ` (`none` = `null`).
* Python naive `datetime` values are modelled as rational "seconds since the
  Unix epoch of the wall-clock reading".  `datetime.fromtimestamp(t)` returns
  the host-local naive datetime of the instant `t`, i.e. `t + tzOffset` where
  `tzOffset` is the host's UTC offset in seconds; `tzOffset` is threaded as an
  explicit parameter `tz`.  The naive-UTC reading of the same instant is `t`
  itself (`utc_instant`).
* Every `store_*` coroutine wraps its whole body in `try/except Exception`;
  an `IndexError`/`TypeError` raised while building the record, or a failure
  raised by the Supabase `insert`, lands in the `except` block which prints an
  error (and, for `store_tempest_observation` and `store_rapid_wind`, also the
  offending payload) and returns normally.  This is modelled by total
  functions returning a `ProcessOutcome`; the Supabase backend's behaviour is
  abstracted by the boolean parameter `sinkFails` (whether `insert(...)`
  raises on this call).
* The only instance attribute any handler mutates is `self.data_received`
  (set to `True` exactly on the success path of `store_tempest_observation`);
  handlers are therefore modelled as pure functions returning
  `(setsFlag, outcome)` and `process_message` merges the flag into the
  explicit `ClientState`.
* The `websockets` async iterator used at line 50 ends iteration normally on
  a clean closure of the connection (close code 1000/1001) and raises
  `ConnectionClosedError` (a subclass of `ConnectionClosed`, caught at line
  58) on any other closure.  `connect_and_listen` is modelled against a
  scripted environment: a list of `Session`s, each delivering its messages
  and then closing either cleanly or abnormally.
-/

namespace TempestWeather

/-- Python `datetime.fromtimestamp(epoch)` (lines 115, 158, 175, 192, 215,
245 of `src/tempest_weather.py`): the host-local naive reading of the
instant `epoch`, i.e. `epoch + tz` where `tz` is the host UTC offset in
seconds. -/
def fromtimestamp (tz : ℚ) (epoch : ℚ) : ℚ := epoch + tz

/-- The naive-UTC reading of the instant `epoch` (what
`datetime.utcfromtimestamp(epoch)` would return); the spec's "UTC instant of
the epoch-seconds value". -/
def utc_instant (epoch : ℚ) : ℚ := epoch

/-- One inbound JSON frame, restricted to the keys
`src/tempest_weather.py` reads: `type`, `device_id`, `serial_number`, and
the three possible payload slots `obs` (list of observation arrays), `ob`
(single array) and `evt` (single array).  `none` models an absent key. -/
structure Message where
  type : String
  device_id : Option Int
  serial_number : Option String
  obs : Option (List (List (Option ℚ)))
  ob : Option (List (Option ℚ))
  evt : Option (List (Option ℚ))
deriving DecidableEq, Repr

/-- The record built at lines 114-134 for the `observations_tempest` table. -/
structure TempestRecord where
  timestamp : ℚ
  device_id : Option Int
  wind_lull : Option ℚ
  wind_avg : Option ℚ
  wind_gust : Option ℚ
  wind_direction : Option ℚ
  wind_sample_interval : Option ℚ
  pressure : Option ℚ
  air_temperature : Option ℚ
  relative_humidity : Option ℚ
  illuminance : Option ℚ
  uv_index : Option ℚ
  solar_radiation : Option ℚ
  rain_accumulation : Option ℚ
  precipitation_type : Option ℚ
  lightning_avg_distance : Option ℚ
  lightning_strike_count : Option ℚ
  battery : Option ℚ
  report_interval : Option ℚ
deriving DecidableEq, Repr

/-- The record built at lines 157-162 for the `rapid_wind` table. -/
structure RapidWindRecord where
  timestamp : ℚ
  device_id : Option Int
  wind_speed : Option ℚ
  wind_direction : Option ℚ
deriving DecidableEq, Repr

/-- The record built at lines 174-178 for the `precipitation_events` table. -/
structure PrecipEventRecord where
  timestamp : ℚ
  device_id : Option Int
  serial_number : Option String
deriving DecidableEq, Repr

/-- The record built at lines 191-197 for the `lightning_strikes` table. -/
structure StrikeRecord where
  timestamp : ℚ
  device_id : Option Int
  serial_number : Option String
  distance : Option ℚ
  energy : Option ℚ
deriving DecidableEq, Repr

/-- The record built at lines 214-225 for the `air_observations` table. -/
structure AirRecord where
  timestamp : ℚ
  device_id : Option Int
  serial_number : Option String
  station_pressure : Option ℚ
  air_temperature : Option ℚ
  relative_humidity : Option ℚ
  lightning_strike_count : Option ℚ
  lightning_avg_distance : Option ℚ
  battery : Option ℚ
  report_interval : Option ℚ
deriving DecidableEq, Repr

/-- The record built at lines 244-261 for the `sky_observations` table. -/
structure SkyRecord where
  timestamp : ℚ
  device_id : Option Int
  serial_number : Option String
  illuminance : Option ℚ
  uv : Option ℚ
  rain_accumulated : Option ℚ
  wind_lull : Option ℚ
  wind_avg : Option ℚ
  wind_gust : Option ℚ
  wind_direction : Option ℚ
  battery : Option ℚ
  report_interval : Option ℚ
  solar_radiation : Option ℚ
  local_day_rain_accumulation : Option ℚ
  precipitation_type : Option ℚ
  wind_sample_interval : Option ℚ
deriving DecidableEq, Repr

/-- A record handed to the Supabase sink, tagged by which handler built it. -/
inductive StoredRecord where
  | tempest (r : TempestRecord)
  | rapidWind (r : RapidWindRecord)
  | precip (r : PrecipEventRecord)
  | strike (r : StrikeRecord)
  | air (r : AirRecord)
  | sky (r : SkyRecord)
deriving DecidableEq, Repr

/-- Observable outcome of `process_message` on one frame.
`errorLogged payloadLogged` models the `except` blocks: the error message is
always printed; `payloadLogged` records whether the offending payload
(`json.dumps(data)`) was also printed (lines 143 and 169 do, the `except`
blocks of the event and legacy handlers do not). -/
inductive ProcessOutcome where
  | skipped
  | stored (table : String) (r : StoredRecord)
  | errorLogged (payloadLogged : Bool)
  | statusPrinted
  | unknownPrinted
deriving DecidableEq, Repr

/-- The mutable attributes of `TempestWeatherClient` (lines 27-31). -/
structure ClientState where
  device_id : Option Int
  run_once : Bool
  data_received : Bool
deriving DecidableEq, Repr

/-- `TempestWeatherClient.__init__` (lines 27-31): `device_id = None`,
`data_received = False`. -/
def initState (run_once : Bool) : ClientState :=
  { device_id := none, run_once := run_once, data_received := false }

/-- Record construction of `store_tempest_observation` (lines 114-134):
succeeds iff the array has at least 18 entries and entry 0 is a number
(`datetime.fromtimestamp(None)` raises `TypeError`, a missing index raises
`IndexError`; both land in the same `except`). -/
def decodeTempest (tz : ℚ) (devId : Option Int) (obs : List (Option ℚ)) :
    Option TempestRecord :=
  if h : 18 ≤ obs.length then
    match obs[0] with
    | some t =>
        some { timestamp := fromtimestamp tz t, device_id := devId,
               wind_lull := obs[1], wind_avg := obs[2], wind_gust := obs[3],
               wind_direction := obs[4], wind_sample_interval := obs[5],
               pressure := obs[6], air_temperature := obs[7],
               relative_humidity := obs[8], illuminance := obs[9],
               uv_index := obs[10], solar_radiation := obs[11],
               rain_accumulation := obs[12], precipitation_type := obs[13],
               lightning_avg_distance := obs[14],
               lightning_strike_count := obs[15], battery := obs[16],
               report_interval := obs[17] }
    | none => none
  else none

/-- Record construction of `store_rapid_wind` (lines 157-162). -/
def decodeRapidWind (tz : ℚ) (devId : Option Int) (obs : List (Option ℚ)) :
    Option RapidWindRecord :=
  if h : 3 ≤ obs.length then
    match obs[0] with
    | some t =>
        some { timestamp := fromtimestamp tz t, device_id := devId,
               wind_speed := obs[1], wind_direction := obs[2] }
    | none => none
  else none

/-- Record construction of `store_lightning_strike` (lines 191-197). -/
def decodeStrike (tz : ℚ) (devId : Option Int) (sn : Option String)
    (evt : List (Option ℚ)) : Option StrikeRecord :=
  if h : 3 ≤ evt.length then
    match evt[0] with
    | some t =>
        some { timestamp := fromtimestamp tz t, device_id := devId,
               serial_number := sn, distance := evt[1], energy := evt[2] }
    | none => none
  else none

/-- Record construction of `store_air_observation` (lines 214-225). -/
def decodeAir (tz : ℚ) (devId : Option Int) (sn : Option String)
    (obs : List (Option ℚ)) : Option AirRecord :=
  if h : 8 ≤ obs.length then
    match obs[0] with
    | some t =>
        some { timestamp := fromtimestamp tz t, device_id := devId,
               serial_number := sn, station_pressure := obs[1],
               air_temperature := obs[2], relative_humidity := obs[3],
               lightning_strike_count := obs[4],
               lightning_avg_distance := obs[5], battery := obs[6],
               report_interval := obs[7] }
    | none => none
  else none

/-- Record construction of `store_sky_observation` (lines 244-261). -/
def decodeSky (tz : ℚ) (devId : Option Int) (sn : Option String)
    (obs : List (Option ℚ)) : Option SkyRecord :=
  if h : 14 ≤ obs.length then
    match obs[0] with
    | some t =>
        some { timestamp := fromtimestamp tz t, device_id := devId,
               serial_number := sn, illuminance := obs[1], uv := obs[2],
               rain_accumulated := obs[3], wind_lull := obs[4],
               wind_avg := obs[5], wind_gust := obs[6],
               wind_direction := obs[7], battery := obs[8],
               report_interval := obs[9], solar_radiation := obs[10],
               local_day_rain_accumulation := obs[11],
               precipitation_type := obs[12], wind_sample_interval := obs[13] }
    | none => none
  else none

/-- `store_tempest_observation` (lines 96-143).  `data.get('obs', [[]])[0]`
raises `IndexError` when `obs` is present but the outer list is empty; an
empty inner array hits `if not obs: return` (silent skip); otherwise the
record is built and inserted.  The returned `Bool` is whether
`self.data_received = True` (line 139) was reached. -/
def store_tempest_observation (tz : ℚ) (sinkFails : Bool) (m : Message) :
    Bool × ProcessOutcome :=
  match (m.obs.getD [[]]).head? with
  | none => (false, .errorLogged true)
  | some obs =>
    if obs.isEmpty then (false, .skipped)
    else
      match decodeTempest tz m.device_id obs with
      | none => (false, .errorLogged true)
      | some r =>
        if sinkFails then (false, .errorLogged true)
        else (true, .stored "observations_tempest" (.tempest r))

/-- `store_rapid_wind` (lines 145-169): `data.get('ob', [])`, silent skip on
an empty array, never sets `data_received`. -/
def store_rapid_wind (tz : ℚ) (sinkFails : Bool) (m : Message) :
    Bool × ProcessOutcome :=
  if (m.ob.getD []).isEmpty then (false, .skipped)
  else
    match decodeRapidWind tz m.device_id (m.ob.getD []) with
    | none => (false, .errorLogged true)
    | some r =>
      if sinkFails then (false, .errorLogged true)
      else (false, .stored "rapid_wind" (.rapidWind r))

/-- `store_precipitation_event` (lines 171-184): `data.get('evt', [0])[0]`;
note the default `[0]` means an absent `evt` key still yields a record with
timestamp `fromtimestamp(0)`.  Its `except` prints only the error, not the
payload. -/
def store_precipitation_event (tz : ℚ) (sinkFails : Bool) (m : Message) :
    Bool × ProcessOutcome :=
  match (m.evt.getD [some 0]).head? with
  | some (some t) =>
    if sinkFails then (false, .errorLogged false)
    else (false, .stored "precipitation_events"
           (.precip { timestamp := fromtimestamp tz t,
                      device_id := m.device_id,
                      serial_number := m.serial_number }))
  | _ => (false, .errorLogged false)

/-- `store_lightning_strike` (lines 186-203): `data.get('evt', [])` with no
emptiness guard; its `except` prints only the error, not the payload. -/
def store_lightning_strike (tz : ℚ) (sinkFails : Bool) (m : Message) :
    Bool × ProcessOutcome :=
  match decodeStrike tz m.device_id m.serial_number (m.evt.getD []) with
  | none => (false, .errorLogged false)
  | some r =>
    if sinkFails then (false, .errorLogged false)
    else (false, .stored "lightning_strikes" (.strike r))

/-- `store_air_observation` (lines 205-231): `data.get('obs', [[]])[0]` with
no `if not obs` guard and no `data_received` assignment; its `except` prints
only the error. -/
def store_air_observation (tz : ℚ) (sinkFails : Bool) (m : Message) :
    Bool × ProcessOutcome :=
  match (m.obs.getD [[]]).head? with
  | none => (false, .errorLogged false)
  | some obs =>
    match decodeAir tz m.device_id m.serial_number obs with
    | none => (false, .errorLogged false)
    | some r =>
      if sinkFails then (false, .errorLogged false)
      else (false, .stored "air_observations" (.air r))

/-- `store_sky_observation` (lines 233-267): same shape as the AIR handler,
14 positional fields, no emptiness guard, no `data_received` assignment. -/
def store_sky_observation (tz : ℚ) (sinkFails : Bool) (m : Message) :
    Bool × ProcessOutcome :=
  match (m.obs.getD [[]]).head? with
  | none => (false, .errorLogged false)
  | some obs =>
    match decodeSky tz m.device_id m.serial_number obs with
    | none => (false, .errorLogged false)
    | some r =>
      if sinkFails then (false, .errorLogged false)
      else (false, .stored "sky_observations" (.sky r))

/-- The `if/elif` dispatch chain of `process_message` (lines 69-94): choose
the handler by `data.get('type')`; `device_status` and `hub_status` are only
printed, anything else is reported as an unknown type. -/
def dispatch (tz : ℚ) (sinkFails : Bool) (m : Message) : Bool × ProcessOutcome :=
  if m.type = "obs_st" then store_tempest_observation tz sinkFails m
  else if m.type = "obs_air" then store_air_observation tz sinkFails m
  else if m.type = "obs_sky" then store_sky_observation tz sinkFails m
  else if m.type = "rapid_wind" then store_rapid_wind tz sinkFails m
  else if m.type = "evt_precip" then store_precipitation_event tz sinkFails m
  else if m.type = "evt_strike" then store_lightning_strike tz sinkFails m
  else if m.type = "device_status" ∨ m.type = "hub_status" then
    (false, .statusPrinted)
  else (false, .unknownPrinted)

/-- `process_message` (lines 63-94): run the dispatched handler and merge
its `setsFlag` result into `self.data_received` (only the success path of
`store_tempest_observation` ever sets it; no handler reads or writes
`self.device_id`). -/
def process_message (tz : ℚ) (sinkFails : Bool) (st : ClientState)
    (m : Message) : ClientState × ProcessOutcome :=
  ({ st with
      data_received := st.data_received || (dispatch tz sinkFails m).1 },
   (dispatch tz sinkFails m).2)

/-- How one transport session ends: the `websockets` async iterator ends
normally on a clean closure (close code 1000/1001) and raises
`ConnectionClosedError` on any other closure, which line 58's
`except websockets.exceptions.ConnectionClosed` catches. -/
inductive ClosureKind where
  | clean
  | abnormal
deriving DecidableEq, Repr

/-- A scripted transport session: the frames the server delivers, then how
the connection closes (if the client has not returned first). -/
structure Session where
  messages : List Message
  closure : ClosureKind
deriving DecidableEq, Repr

/-- Observable events of `connect_and_listen`. -/
inductive TraceEvent where
  | subscribed (deviceId : Int) (reqId : String)
  | processed (o : ProcessOutcome)
  | slept (seconds : Nat)
deriving DecidableEq, Repr

/-- The `async for` receive loop (lines 50-57): process each frame, and
after each one return early when `self.run_once and self.data_received`.
Returns the final state, the trace of processed outcomes, and whether the
loop returned early (line 57). -/
def receive_loop (tz : ℚ) (sinkFails : Bool) :
    ClientState → List Message → ClientState × List TraceEvent × Bool
  | st, [] => (st, [], false)
  | st, m :: ms =>
    let p := process_message tz sinkFails st m
    if p.1.run_once && p.1.data_received then (p.1, [.processed p.2], true)
    else
      let rest := receive_loop tz sinkFails p.1 ms
      (rest.1, .processed p.2 :: rest.2.1, rest.2.2)

/-- `connect_and_listen` (lines 33-61), run against a scripted list of
sessions: connect, send the hardcoded subscription frame
`{"type": "listen_start", "device_id": 469455, "id": "tempest-listener"}`
(lines 39-45), run the receive loop; on an early `return` or a clean closure
the coroutine returns, and on an abnormal closure the `except` at line 58
sleeps 5 seconds and recursively re-invokes `connect_and_listen` on the next
scripted session. -/
def connect_and_listen (tz : ℚ) (sinkFails : Bool) :
    ClientState → List Session → ClientState × List TraceEvent
  | st, [] => (st, [])
  | st, s :: rest =>
    let r := receive_loop tz sinkFails st s.messages
    let tr := TraceEvent.subscribed 469455 "tempest-listener" :: r.2.1
    if r.2.2 then (r.1, tr)
    else
      match s.closure with
      | .clean => (r.1, tr)
      | .abnormal =>
        let next := connect_and_listen tz sinkFails r.1 rest
        (next.1, tr ++ TraceEvent.slept 5 :: next.2)

/-- How the bounded (`--once`) run of `main` ends (lines 296-304):
`completed` = `connect_and_listen` returned, `timedOut` =
`asyncio.TimeoutError` from the 120 s `wait_for`, `errored` = any other
exception. -/
inductive RunOnceOutcome where
  | completed
  | timedOut
  | errored
deriving DecidableEq, Repr

/-- Process exit code of the bounded (`--once`) branch of `main`
(lines 296-304): a caught `TimeoutError` just prints and falls through to a
normal return (exit code 0); any other exception hits `sys.exit(1)`; normal
completion exits 0. -/
def run_once_exit_code : RunOnceOutcome → Nat
  | .completed => 0
  | .timedOut => 0
  | .errored => 1

/-- Minimum payload length needed for each message type's record
construction to succeed (the highest index read, plus one). -/
def minLen : String → Nat
  | "obs_st" => 18
  | "obs_air" => 8
  | "obs_sky" => 14
  | "rapid_wind" => 3
  | "evt_strike" => 3
  | "evt_precip" => 1
  | _ => 0

/-- The six message types that carry a positional payload array. -/
def recognizedPayloadTypes : List String :=
  ["obs_st", "obs_air", "obs_sky", "rapid_wind", "evt_precip", "evt_strike"]

/-- Build a frame of type `t` whose payload array is `p`, placed in the slot
(`obs`, `ob` or `evt`) that the type's handler reads. -/
def mkMsg (t : String) (p : List (Option ℚ)) : Message :=
  if t = "rapid_wind" then
    { type := t, device_id := none, serial_number := none,
      obs := none, ob := some p, evt := none }
  else if t = "evt_precip" ∨ t = "evt_strike" then
    { type := t, device_id := none, serial_number := none,
      obs := none, ob := none, evt := some p }
  else
    { type := t, device_id := none, serial_number := none,
      obs := some [p], ob := none, evt := none }

/-- A concrete well-formed full-station payload array (the spec's §8
scenario: 18 entries, a `null` at index 14). -/
def obsSt18 : List (Option ℚ) :=
  [some 1700000000, some 0, some 3.1, some 4.2, some 180, some 3,
   some 1013.2, some 21.5, some 55, some 1200, some 2, some 150, some 0,
   some 0, none, some 0, some 98, some 60]

/-- A concrete `obs_st` frame carrying `obsSt18`. -/
def tempestMsg : Message :=
  { type := "obs_st", device_id := some 469455,
    serial_number := some "ST-00012345", obs := some [obsSt18],
    ob := none, evt := none }

/-- A concrete well-formed `obs_air` frame (8 payload entries). -/
def airMsg : Message :=
  { type := "obs_air", device_id := some 2,
    serial_number := some "AR-00001234",
    obs := some [[some 1700000000, some 1013, some 20, some 50, some 0,
                  some 0, some 3, some 1]],
    ob := none, evt := none }

/-- A concrete well-formed `evt_strike` frame (3 payload entries). -/
def strikeMsg : Message :=
  { type := "evt_strike", device_id := some 7,
    serial_number := some "ST-00000001", obs := none, ob := none,
    evt := some [some 1700000000, some 12, some 5000] }

/-! ## Supporting lemmas -/

theorem decodeTempest_short (tz : ℚ) (d : Option Int)
    (obs : List (Option ℚ)) (h : obs.length < 18) :
    decodeTempest tz d obs = none := by
  unfold decodeTempest
  rw [dif_neg (by omega)]

theorem decodeRapidWind_short (tz : ℚ) (d : Option Int)
    (obs : List (Option ℚ)) (h : obs.length < 3) :
    decodeRapidWind tz d obs = none := by
  unfold decodeRapidWind
  rw [dif_neg (by omega)]

theorem decodeStrike_short (tz : ℚ) (d : Option Int) (sn : Option String)
    (evt : List (Option ℚ)) (h : evt.length < 3) :
    decodeStrike tz d sn evt = none := by
  unfold decodeStrike
  rw [dif_neg (by omega)]

theorem decodeAir_short (tz : ℚ) (d : Option Int) (sn : Option String)
    (obs : List (Option ℚ)) (h : obs.length < 8) :
    decodeAir tz d sn obs = none := by
  unfold decodeAir
  rw [dif_neg (by omega)]

theorem decodeSky_short (tz : ℚ) (d : Option Int) (sn : Option String)
    (obs : List (Option ℚ)) (h : obs.length < 14) :
    decodeSky tz d sn obs = none := by
  unfold decodeSky
  rw [dif_neg (by omega)]

theorem process_message_run_once (tz : ℚ) (sf : Bool) (st : ClientState)
    (m : Message) : (process_message tz sf st m).1.run_once = st.run_once :=
  rfl

theorem process_message_fst_device_id (tz : ℚ) (sf : Bool) (st : ClientState)
    (m : Message) : (process_message tz sf st m).1.device_id = st.device_id :=
  rfl

theorem process_message_data_received (tz : ℚ) (sf : Bool) (st : ClientState)
    (m : Message) :
    (process_message tz sf st m).1.data_received
      = (st.data_received || (dispatch tz sf m).1) :=
  rfl

theorem process_message_snd (tz : ℚ) (sf : Bool) (st : ClientState)
    (m : Message) :
    (process_message tz sf st m).2 = (dispatch tz sf m).2 :=
  rfl

theorem store_tempest_observation_shape (tz : ℚ) (sf : Bool) (m : Message) :
    store_tempest_observation tz sf m = (false, .skipped)
  ∨ store_tempest_observation tz sf m = (false, .errorLogged true)
  ∨ (∃ r, sf = false ∧ store_tempest_observation tz sf m
       = (true, .stored "observations_tempest" (.tempest r))) := by
  unfold store_tempest_observation
  repeat' split
  all_goals simp_all

theorem store_air_observation_shape (tz : ℚ) (sf : Bool) (m : Message) :
    store_air_observation tz sf m = (false, .errorLogged false)
  ∨ (∃ r, sf = false ∧ store_air_observation tz sf m
       = (false, .stored "air_observations" (.air r))) := by
  unfold store_air_observation
  repeat' split
  all_goals simp_all

theorem store_sky_observation_shape (tz : ℚ) (sf : Bool) (m : Message) :
    store_sky_observation tz sf m = (false, .errorLogged false)
  ∨ (∃ r, sf = false ∧ store_sky_observation tz sf m
       = (false, .stored "sky_observations" (.sky r))) := by
  unfold store_sky_observation
  repeat' split
  all_goals simp_all

theorem store_rapid_wind_shape (tz : ℚ) (sf : Bool) (m : Message) :
    store_rapid_wind tz sf m = (false, .skipped)
  ∨ store_rapid_wind tz sf m = (false, .errorLogged true)
  ∨ (∃ r, sf = false ∧ store_rapid_wind tz sf m
       = (false, .stored "rapid_wind" (.rapidWind r))) := by
  unfold store_rapid_wind
  repeat' split
  all_goals simp_all

theorem store_precipitation_event_shape (tz : ℚ) (sf : Bool) (m : Message) :
    store_precipitation_event tz sf m = (false, .errorLogged false)
  ∨ (∃ r, sf = false ∧ store_precipitation_event tz sf m
       = (false, .stored "precipitation_events" (.precip r))) := by
  unfold store_precipitation_event
  repeat' split
  all_goals simp_all

theorem store_lightning_strike_shape (tz : ℚ) (sf : Bool) (m : Message) :
    store_lightning_strike tz sf m = (false, .errorLogged false)
  ∨ (∃ r, sf = false ∧ store_lightning_strike tz sf m
       = (false, .stored "lightning_strikes" (.strike r))) := by
  unfold store_lightning_strike
  repeat' split
  all_goals simp_all

/-- Exhaustive case analysis of the dispatcher's result: which outcomes each
handler can produce, which handlers log the payload on error, and which
handler sets the `data_received` flag. -/
theorem dispatch_shape (tz : ℚ) (sf : Bool) (m : Message) :
    (dispatch tz sf m = (false, .skipped)
       ∧ (m.type = "obs_st" ∨ m.type = "rapid_wind"))
  ∨ (dispatch tz sf m = (false, .errorLogged true)
       ∧ (m.type = "obs_st" ∨ m.type = "rapid_wind"))
  ∨ (dispatch tz sf m = (false, .errorLogged false)
       ∧ (m.type = "obs_air" ∨ m.type = "obs_sky" ∨ m.type = "evt_precip"
            ∨ m.type = "evt_strike"))
  ∨ dispatch tz sf m = (false, .statusPrinted)
  ∨ dispatch tz sf m = (false, .unknownPrinted)
  ∨ (∃ r, sf = false ∧ m.type = "obs_st"
       ∧ dispatch tz sf m = (true, .stored "observations_tempest" (.tempest r)))
  ∨ (∃ r, sf = false ∧ m.type = "obs_air"
       ∧ dispatch tz sf m = (false, .stored "air_observations" (.air r)))
  ∨ (∃ r, sf = false ∧ m.type = "obs_sky"
       ∧ dispatch tz sf m = (false, .stored "sky_observations" (.sky r)))
  ∨ (∃ r, sf = false ∧ m.type = "rapid_wind"
       ∧ dispatch tz sf m = (false, .stored "rapid_wind" (.rapidWind r)))
  ∨ (∃ r, sf = false ∧ m.type = "evt_precip"
       ∧ dispatch tz sf m = (false, .stored "precipitation_events" (.precip r)))
  ∨ (∃ r, sf = false ∧ m.type = "evt_strike"
       ∧ dispatch tz sf m = (false, .stored "lightning_strikes" (.strike r))) := by
  unfold dispatch
  split
  · rcases store_tempest_observation_shape tz sf m with h | h | ⟨r, hsf, h⟩ <;>
      rw [h] <;> simp_all
  split
  · rcases store_air_observation_shape tz sf m with h | ⟨r, hsf, h⟩ <;>
      rw [h] <;> simp_all
  split
  · rcases store_sky_observation_shape tz sf m with h | ⟨r, hsf, h⟩ <;>
      rw [h] <;> simp_all
  split
  · rcases store_rapid_wind_shape tz sf m with h | h | ⟨r, hsf, h⟩ <;>
      rw [h] <;> simp_all
  split
  · rcases store_precipitation_event_shape tz sf m with h | ⟨r, hsf, h⟩ <;>
      rw [h] <;> simp_all
  split
  · rcases store_lightning_strike_shape tz sf m with h | ⟨r, hsf, h⟩ <;>
      rw [h] <;> simp_all
  split
  · simp_all
  · simp_all

/-! ## Claim C1 -/

/-- C1 (corrected): for every full-station payload array of length ≥ 18
whose epoch entry (index 0) is a number, `decodeTempest` produces a record
with all 18 named fields populated from their fixed positions; its timestamp
is the host-local reading of the epoch-seconds value at index 0
(`fromtimestamp tz t = t + tz`), which coincides with the UTC instant of
that value exactly when the host's UTC offset is zero — not unconditionally,
as the claim states. -/
theorem c1_full_station_decode (tz t : ℚ) (d : Option Int)
    (obs : List (Option ℚ)) (h : 18 ≤ obs.length) (h0 : obs[0] = some t) :
    decodeTempest tz d obs
      = some { timestamp := fromtimestamp tz t, device_id := d,
               wind_lull := obs[1], wind_avg := obs[2], wind_gust := obs[3],
               wind_direction := obs[4], wind_sample_interval := obs[5],
               pressure := obs[6], air_temperature := obs[7],
               relative_humidity := obs[8], illuminance := obs[9],
               uv_index := obs[10], solar_radiation := obs[11],
               rain_accumulation := obs[12], precipitation_type := obs[13],
               lightning_avg_distance := obs[14],
               lightning_strike_count := obs[15], battery := obs[16],
               report_interval := obs[17] }
    ∧ (fromtimestamp tz t = utc_instant t ↔ tz = 0) := by
  constructor
  · unfold decodeTempest
    rw [dif_pos h]
    split
    next t' heq =>
      rw [h0] at heq
      injection heq with heq
      subst heq
      rfl
    next heq =>
      rw [h0] at heq
      cases heq
  · unfold fromtimestamp utc_instant
    constructor
    · intro he
      linarith
    · intro hz
      rw [hz, add_zero]

/-- C1 witness: the theorem applied to the spec's §8 sample payload with a
host UTC offset of 3600 seconds. -/
theorem c1_full_station_decode_witness :
    decodeTempest 3600 (some 469455) obsSt18
      = some { timestamp := fromtimestamp 3600 1700000000,
               device_id := some 469455, wind_lull := some 0,
               wind_avg := some 3.1, wind_gust := some 4.2,
               wind_direction := some 180, wind_sample_interval := some 3,
               pressure := some 1013.2, air_temperature := some 21.5,
               relative_humidity := some 55, illuminance := some 1200,
               uv_index := some 2, solar_radiation := some 150,
               rain_accumulation := some 0, precipitation_type := some 0,
               lightning_avg_distance := none,
               lightning_strike_count := some 0, battery := some 98,
               report_interval := some 60 }
    ∧ (fromtimestamp 3600 1700000000 = utc_instant 1700000000
         ↔ (3600 : ℚ) = 0) :=
  c1_full_station_decode 3600 1700000000 (some 469455) obsSt18
    (by decide) rfl

/-- C1 counterexample: on the sample payload, with a host UTC offset of
3600 s, the decoded timestamp is 1700003600, which differs from the UTC
instant 1700000000 of the epoch value at index 0 — so the claim's "timestamp
equals the UTC instant of array index 0" is false as stated. -/
theorem c1_full_station_decode_counterexample :
    (decodeTempest 3600 (some 469455) obsSt18).map TempestRecord.timestamp
      = some 1700003600
    ∧ utc_instant 1700000000 = 1700000000
    ∧ (1700003600 : ℚ) ≠ (1700000000 : ℚ) := by
  refine ⟨?_, rfl, by norm_num⟩
  simp [decodeTempest, obsSt18, fromtimestamp]
  norm_num

/-! ## Claim C3 -/

/-- C3 (corrected): an empty or absent payload array is a silent no-op only
for `obs_st` and `rapid_wind`.  For `obs_air`, `obs_sky` and `evt_strike`
(and for `evt_precip` with a present-but-empty array) it produces a logged
error; and for `evt_precip` with an absent `evt` key the default `[0]`
produces a stored record with timestamp taken from epoch 0. -/
theorem c3_empty_payload (tz : ℚ) (sf : Bool) (st : ClientState)
    (d : Option Int) (sn : Option String) :
    (process_message tz sf st ⟨"obs_st", d, sn, none, none, none⟩).2
        = .skipped
  ∧ (process_message tz sf st ⟨"obs_st", d, sn, some [[]], none, none⟩).2
        = .skipped
  ∧ (process_message tz sf st ⟨"rapid_wind", d, sn, none, none, none⟩).2
        = .skipped
  ∧ (process_message tz sf st ⟨"rapid_wind", d, sn, none, some [], none⟩).2
        = .skipped
  ∧ (process_message tz sf st ⟨"obs_air", d, sn, none, none, none⟩).2
        = .errorLogged false
  ∧ (process_message tz sf st ⟨"obs_air", d, sn, some [[]], none, none⟩).2
        = .errorLogged false
  ∧ (process_message tz sf st ⟨"obs_sky", d, sn, none, none, none⟩).2
        = .errorLogged false
  ∧ (process_message tz sf st ⟨"obs_sky", d, sn, some [[]], none, none⟩).2
        = .errorLogged false
  ∧ (process_message tz sf st ⟨"evt_strike", d, sn, none, none, none⟩).2
        = .errorLogged false
  ∧ (process_message tz sf st ⟨"evt_strike", d, sn, none, none, some []⟩).2
        = .errorLogged false
  ∧ (process_message tz sf st ⟨"evt_precip", d, sn, none, none, some []⟩).2
        = .errorLogged false
  ∧ (process_message tz false st ⟨"evt_precip", d, sn, none, none, none⟩).2
        = .stored "precipitation_events"
            (.precip { timestamp := fromtimestamp tz 0, device_id := d,
                       serial_number := sn }) :=
  ⟨rfl, rfl, rfl, rfl, rfl, rfl, rfl, rfl, rfl, rfl, rfl, rfl⟩

/-- C3 counterexample: an `evt_strike` frame whose `evt` payload array is
empty produces a logged error, not the claimed "zero records and zero
errors". -/
theorem c3_empty_payload_counterexample :
    (process_message 0 false (initState false)
        ⟨"evt_strike", some 1, some "ST-00020831", none, none, some []⟩).2
      = .errorLogged false :=
  rfl

/-! ## Claim C7 -/

/-- C7 counterexample: in the bounded (`--once`) CLI mode, the wall-clock
timeout path (`asyncio.TimeoutError` caught at line 300) falls through to a
normal return, so the process exits 0 even though zero records were
collected — not the claimed non-zero exit code. -/
theorem c7_exit_code_counterexample : run_once_exit_code .timedOut = 0 :=
  rfl

/-- C7 (corrected): the bounded CLI mode exits 0 both on completion and on
the wall-clock timeout (the zero-records timeout case included); a non-zero
exit code (1) occurs only when an unhandled error escapes
`connect_and_listen`. -/
theorem c7_exit_code :
    run_once_exit_code .completed = 0
  ∧ run_once_exit_code .timedOut = 0
  ∧ run_once_exit_code .errored = 1 :=
  ⟨rfl, rfl, rfl⟩

/-! ## Claim C8 -/

/-- C8 (confirmed): processing the frame
`{"type":"rapid_wind","device_id":1,"ob":[1700000000,2.5,270]}` yields
exactly one stored `rapid_wind` record with wind_speed 2.5 (payload index
1), wind_direction 270 (payload index 2), device_id 1, and timestamp derived
from epoch-seconds 1700000000 (via `fromtimestamp`); the client state is
unchanged. -/
theorem c8_rapid_wind_scenario (tz : ℚ) (st : ClientState) :
    process_message tz false st
      { type := "rapid_wind", device_id := some 1, serial_number := none,
        obs := none, ob := some [some 1700000000, some 2.5, some 270],
        evt := none }
      = (st, .stored "rapid_wind"
          (.rapidWind { timestamp := fromtimestamp tz 1700000000,
                        device_id := some 1, wind_speed := some 2.5,
                        wind_direction := some 270 })) := by
  cases st
  simp [process_message, dispatch, store_rapid_wind, decodeRapidWind]

/-! ## Claim C2 -/

/-- C2 (corrected): for every payload array shorter than the minimum
required length for its declared type, processing never faults out of
bounds and never stores a record: the uncaught `IndexError`/`TypeError` is
turned into a logged decode failure by the handler's `except` block — except
that an empty payload array for `obs_st` or `rapid_wind` is skipped
silently (the `if not obs: return` guard), which is a no-op rather than the
decode failure the claim states. -/
theorem c2_short_payload (tz : ℚ) (sf : Bool) (st : ClientState) (t : String)
    (p : List (Option ℚ)) (ht : t ∈ recognizedPayloadTypes)
    (hp : p.length < minLen t) :
    (∃ b, (process_message tz sf st (mkMsg t p)).2 = .errorLogged b)
  ∨ ((t = "obs_st" ∨ t = "rapid_wind") ∧ p = []
       ∧ (process_message tz sf st (mkMsg t p)).2 = .skipped) := by
  simp only [recognizedPayloadTypes, List.mem_cons, List.not_mem_nil,
    or_false] at ht
  rcases ht with rfl | rfl | rfl | rfl | rfl | rfl
  · rcases p with _ | ⟨a, q⟩
    · exact Or.inr ⟨Or.inl rfl, rfl, rfl⟩
    · refine Or.inl ⟨true, ?_⟩
      have hnone := decodeTempest_short tz none (a :: q) hp
      simp [process_message, dispatch, mkMsg, store_tempest_observation,
        hnone]
  · refine Or.inl ⟨false, ?_⟩
    have hnone := decodeAir_short tz none none p hp
    simp [process_message, dispatch, mkMsg, store_air_observation, hnone]
  · refine Or.inl ⟨false, ?_⟩
    have hnone := decodeSky_short tz none none p hp
    simp [process_message, dispatch, mkMsg, store_sky_observation, hnone]
  · rcases p with _ | ⟨a, q⟩
    · exact Or.inr ⟨Or.inr rfl, rfl, rfl⟩
    · refine Or.inl ⟨true, ?_⟩
      have hnone := decodeRapidWind_short tz none (a :: q) hp
      simp [process_message, dispatch, mkMsg, store_rapid_wind, hnone]
  · have hp1 : p.length < 1 := hp
    have hp0 : p = [] := List.length_eq_zero.mp (by omega)
    subst hp0
    exact Or.inl ⟨false, rfl⟩
  · refine Or.inl ⟨false, ?_⟩
    have hnone := decodeStrike_short tz none none p hp
    simp [process_message, dispatch, mkMsg, store_lightning_strike, hnone]

/-- C2 witness: an `obs_air` frame with a 1-element payload (shorter than
the required 8) produces a logged decode failure. -/
theorem c2_short_payload_witness :
    (∃ b, (process_message 0 false (initState false)
             (mkMsg "obs_air" [some 1700000000])).2 = .errorLogged b)
  ∨ (("obs_air" = "obs_st" ∨ "obs_air" = "rapid_wind")
       ∧ [some (1700000000 : ℚ)] = []
       ∧ (process_message 0 false (initState false)
            (mkMsg "obs_air" [some 1700000000])).2 = .skipped) :=
  c2_short_payload 0 false (initState false) "obs_air" [some 1700000000]
    (by decide) (by decide)

/-- C2 counterexample: an `obs_st` frame whose (inner) payload array is
empty — length 0, well below the minimum 18 — is skipped silently rather
than producing the decode failure the claim asserts for every
shorter-than-minimum array. -/
theorem c2_short_payload_counterexample :
    (process_message 0 false (initState false) (mkMsg "obs_st" [])).2
      = .skipped :=
  rfl

/-! ## Claim C5 -/

/-- C5 (corrected): with the storage backend failing, no message ever
stores a record, `process_message` still returns normally (it is a total
function) with a logged error, and the receive loop continues with the next
message; however the offending payload is logged together with the error
only by the `obs_st` and `rapid_wind` handlers — the event and legacy
handlers log only the error, contrary to the claim's "the error and
offending payload are logged" for every message. -/
theorem c5_storage_failure_resilience (tz : ℚ) (st : ClientState)
    (m : Message) :
    (∀ tbl r, (process_message tz true st m).2 ≠ .stored tbl r)
  ∧ ((process_message tz true st m).2 = .errorLogged true →
        m.type = "obs_st" ∨ m.type = "rapid_wind")
  ∧ ((process_message tz true st m).2 = .errorLogged false →
        m.type = "obs_air" ∨ m.type = "obs_sky" ∨ m.type = "evt_precip"
          ∨ m.type = "evt_strike")
  ∧ (∀ ms, st.run_once = false →
        receive_loop tz true st (m :: ms)
          = ((receive_loop tz true (process_message tz true st m).1 ms).1,
             .processed (process_message tz true st m).2
               :: (receive_loop tz true
                     (process_message tz true st m).1 ms).2.1,
             (receive_loop tz true
                (process_message tz true st m).1 ms).2.2)) := by
  refine ⟨?_, ?_, ?_, ?_⟩
  · intro tbl r hEq
    rw [process_message_snd] at hEq
    rcases dispatch_shape tz true m with
      ⟨h,-⟩|⟨h,-⟩|⟨h,-⟩|h|h|⟨r',hsf,-,h⟩|⟨r',hsf,-,h⟩|⟨r',hsf,-,h⟩|⟨r',hsf,-,h⟩|⟨r',hsf,-,h⟩|⟨r',hsf,-,h⟩ <;>
      simp_all
  · intro hEq
    rw [process_message_snd] at hEq
    rcases dispatch_shape tz true m with
      ⟨h,ht⟩|⟨h,ht⟩|⟨h,ht⟩|h|h|⟨r',hsf,ht,h⟩|⟨r',hsf,ht,h⟩|⟨r',hsf,ht,h⟩|⟨r',hsf,ht,h⟩|⟨r',hsf,ht,h⟩|⟨r',hsf,ht,h⟩ <;>
      simp_all
  · intro hEq
    rw [process_message_snd] at hEq
    rcases dispatch_shape tz true m with
      ⟨h,ht⟩|⟨h,ht⟩|⟨h,ht⟩|h|h|⟨r',hsf,ht,h⟩|⟨r',hsf,ht,h⟩|⟨r',hsf,ht,h⟩|⟨r',hsf,ht,h⟩|⟨r',hsf,ht,h⟩|⟨r',hsf,ht,h⟩ <;>
      simp_all
  · intro ms h0
    simp [receive_loop, process_message_run_once, h0]

/-- C5 witness: the receive loop continues past a lightning-strike frame
whose store failed. -/
theorem c5_storage_failure_resilience_witness :
    receive_loop 0 true (initState false) [strikeMsg]
      = ((receive_loop 0 true
            (process_message 0 true (initState false) strikeMsg).1 []).1,
         .processed (process_message 0 true (initState false) strikeMsg).2
           :: (receive_loop 0 true
                 (process_message 0 true (initState false) strikeMsg).1
                 []).2.1,
         (receive_loop 0 true
            (process_message 0 true (initState false) strikeMsg).1 []).2.2) :=
  (c5_storage_failure_resilience 0 (initState false) strikeMsg).2.2.2 [] rfl

/-- C5 counterexample: a well-formed `evt_strike` frame whose insert fails
is logged without the offending payload (`errorLogged false`; the `except`
at lines 202-203 prints only the error), contradicting the claim that "the
error and offending payload are logged" for every inbound message. -/
theorem c5_storage_failure_resilience_counterexample :
    (process_message 0 true (initState false) strikeMsg).2
      = .errorLogged false :=
  rfl

/-! ## Claim C6 -/

/-- C6 (corrected): the `data_received` flag is set exactly when an
`obs_st` record was successfully stored — a successful store of a legacy
`obs_air` or `obs_sky` observation does NOT set it (their handlers lack the
`self.data_received = True` line), so bounded run mode terminates only after
the first successfully stored full-station observation, not after any
primary observation type as claimed. -/
theorem c6_data_received_flag (tz : ℚ) (sf : Bool) (st : ClientState)
    (m : Message) :
    ((process_message tz sf st m).1.data_received = true
       ↔ (st.data_received = true
            ∨ ∃ r, (process_message tz sf st m).2
                = .stored "observations_tempest" (.tempest r)))
  ∧ (∀ ms, st.run_once = true →
       (process_message tz sf st m).1.data_received = true →
       receive_loop tz sf st (m :: ms)
         = ((process_message tz sf st m).1,
            [.processed (process_message tz sf st m).2], true)) := by
  constructor
  · rw [process_message_data_received, process_message_snd, Bool.or_eq_true]
    refine or_congr_right ?_
    rcases dispatch_shape tz sf m with
      ⟨h,-⟩|⟨h,-⟩|⟨h,-⟩|h|h|⟨r,hsf,-,h⟩|⟨r,hsf,-,h⟩|⟨r,hsf,-,h⟩|⟨r,hsf,-,h⟩|⟨r,hsf,-,h⟩|⟨r,hsf,-,h⟩ <;>
      rw [h] <;> simp
  · intro ms h0 h1
    simp [receive_loop, process_message_run_once, h0, h1]

/-- C6 witness: in bounded mode, the receive loop terminates right after
the frame that stores a full-station observation. -/
theorem c6_data_received_flag_witness :
    receive_loop 0 false (initState true) [tempestMsg]
      = ((process_message 0 false (initState true) tempestMsg).1,
         [.processed (process_message 0 false (initState true) tempestMsg).2],
         true) :=
  (c6_data_received_flag 0 false (initState true) tempestMsg).2 [] rfl rfl

/-- C6 counterexample: a successful store of a legacy AIR observation
leaves `data_received` false, contradicting the claim that a successful
store of any primary observation type sets the flag. -/
theorem c6_data_received_flag_counterexample :
    (process_message 0 false (initState true) airMsg).1.data_received = false
  ∧ (process_message 0 false (initState true) airMsg).2
      = .stored "air_observations"
          (.air { timestamp := fromtimestamp 0 1700000000,
                  device_id := some 2, serial_number := some "AR-00001234",
                  station_pressure := some 1013, air_temperature := some 20,
                  relative_humidity := some 50,
                  lightning_strike_count := some 0,
                  lightning_avg_distance := some 0, battery := some 3,
                  report_interval := some 1 }) :=
  ⟨rfl, rfl⟩

/-! ## Claim C4 -/

/-- C4 (corrected): when the receive loop of the first session does not
return early, a clean closure terminates `connect_and_listen` in every mode
(the `websockets` iterator just ends, so the coroutine returns — no delay,
no reconnect inside `connect_and_listen`), while an abnormal closure — in
every mode, bounded included — triggers exactly one 5-second sleep followed
by exactly one recursive re-establishment that re-sends the identical
hardcoded subscription. -/
theorem c4_closure_reconnect (tz : ℚ) (sf : Bool) (st : ClientState)
    (ms : List Message) (rest : List Session)
    (h : (receive_loop tz sf st ms).2.2 = false) :
    connect_and_listen tz sf st ({ messages := ms, closure := .clean } :: rest)
      = ((receive_loop tz sf st ms).1,
         .subscribed 469455 "tempest-listener"
           :: (receive_loop tz sf st ms).2.1)
  ∧ connect_and_listen tz sf st
        ({ messages := ms, closure := .abnormal } :: rest)
      = ((connect_and_listen tz sf (receive_loop tz sf st ms).1 rest).1,
         (.subscribed 469455 "tempest-listener"
            :: (receive_loop tz sf st ms).2.1)
           ++ (TraceEvent.slept 5
                 :: (connect_and_listen tz sf (receive_loop tz sf st ms).1
                       rest).2)) := by
  constructor <;> simp [connect_and_listen, h]

/-- C4 witness: the theorem applied to an empty first session. -/
theorem c4_closure_reconnect_witness :
    connect_and_listen 0 false (initState false)
        [{ messages := [], closure := .clean }]
      = ((receive_loop 0 false (initState false) []).1,
         .subscribed 469455 "tempest-listener"
           :: (receive_loop 0 false (initState false) []).2.1)
  ∧ connect_and_listen 0 false (initState false)
        [{ messages := [], closure := .abnormal }]
      = ((connect_and_listen 0 false
            (receive_loop 0 false (initState false) []).1 []).1,
         (.subscribed 469455 "tempest-listener"
            :: (receive_loop 0 false (initState false) []).2.1)
           ++ (TraceEvent.slept 5
                 :: (connect_and_listen 0 false
                       (receive_loop 0 false (initState false) []).1 []).2)) :=
  c4_closure_reconnect 0 false (initState false) [] [] rfl

/-- C4 counterexample: in continuous mode (`run_once = false`) a clean
closure by the remote peer terminates `connect_and_listen` with no
5-second delay and no re-subscription: on a two-session script whose first
session closes cleanly, the trace holds exactly one subscription event and
no sleep, and the second session is never reached — contradicting the
claimed wait-5-seconds-and-re-establish behaviour of continuous mode. -/
theorem c4_closure_reconnect_counterexample :
    connect_and_listen 0 false (initState false)
        [{ messages := [], closure := .clean },
         { messages := [], closure := .clean }]
      = (initState false, [.subscribed 469455 "tempest-listener"]) :=
  rfl

/-! ## Claim C9 -/

theorem decodeStrike_cons (tz : ℚ) (d : Option Int) (sn : Option String)
    (t : ℚ) (b c : Option ℚ) (l : List (Option ℚ)) :
    decodeStrike tz d sn (some t :: b :: c :: l)
      = some { timestamp := fromtimestamp tz t, device_id := d,
               serial_number := sn, distance := b, energy := c } := by
  unfold decodeStrike
  rw [dif_pos (by simp)]
  rfl

theorem store_lightning_strike_stored (tz : ℚ) (sf : Bool) (m : Message)
    (tbl : String) (r : StrikeRecord)
    (h : (store_lightning_strike tz sf m).2 = .stored tbl (.strike r)) :
    tbl = "lightning_strikes"
    ∧ ∃ t d e rest, m.evt = some (some t :: d :: e :: rest)
        ∧ r = { timestamp := fromtimestamp tz t, device_id := m.device_id,
                serial_number := m.serial_number, distance := d,
                energy := e } := by
  unfold store_lightning_strike at h
  rcases hevt : m.evt with _ | l
  · rw [hevt] at h
    simp [decodeStrike] at h
  · rw [hevt] at h
    rcases l with _ | ⟨a, l1⟩
    · simp [decodeStrike] at h
    rcases l1 with _ | ⟨b, l2⟩
    · simp [decodeStrike] at h
    rcases l2 with _ | ⟨c, l3⟩
    · simp [decodeStrike] at h
    rcases a with _ | t
    · simp [decodeStrike] at h
    simp only [Option.getD_some, decodeStrike_cons] at h
    split at h
    · simp at h
    · simp only [ProcessOutcome.stored.injEq, StoredRecord.strike.injEq] at h
      exact ⟨h.1.symm, t, b, c, l3, rfl, h.2.symm⟩

theorem store_precipitation_event_stored (tz : ℚ) (sf : Bool) (m : Message)
    (tbl : String) (r : PrecipEventRecord)
    (h : (store_precipitation_event tz sf m).2 = .stored tbl (.precip r)) :
    tbl = "precipitation_events"
    ∧ ∃ t rest, m.evt.getD [some 0] = some t :: rest
        ∧ r = { timestamp := fromtimestamp tz t, device_id := m.device_id,
                serial_number := m.serial_number } := by
  unfold store_precipitation_event at h
  split at h
  next t heqHead =>
    split at h
    · simp at h
    · simp only [ProcessOutcome.stored.injEq, StoredRecord.precip.injEq] at h
      obtain ⟨l, hl⟩ : ∃ l, m.evt.getD [some 0] = some t :: l := by
        rcases hgd : m.evt.getD [some 0] with _ | ⟨a, l⟩
        · rw [hgd] at heqHead
          simp at heqHead
        · rw [hgd] at heqHead
          simp only [List.head?_cons, Option.some.injEq] at heqHead
          exact ⟨l, by rw [heqHead]⟩
      exact ⟨h.1.symm, t, l, hl, h.2.symm⟩
  next heqHead => simp at h

/-- C9 (confirmed): every lightning-strike record handed to the sink
carries the timestamp decoded from `evt[0]`, the envelope's `device_id` and
`serial_number`, and distance/energy taken from `evt[1]`/`evt[2]`; every
precipitation-event record carries the timestamp decoded from position 0 of
the effective event array (the payload array, or the default `[0]` when the
key is absent) together with the envelope's `device_id` and
`serial_number` (precipitation events have no further event-specific
fields). -/
theorem c9_event_records (tz : ℚ) (sf : Bool) (st : ClientState)
    (m : Message) :
    (∀ tbl r, (process_message tz sf st m).2 = .stored tbl (.strike r) →
        tbl = "lightning_strikes"
        ∧ ∃ t d e rest, m.evt = some (some t :: d :: e :: rest)
            ∧ r = { timestamp := fromtimestamp tz t,
                    device_id := m.device_id,
                    serial_number := m.serial_number, distance := d,
                    energy := e })
  ∧ (∀ tbl r, (process_message tz sf st m).2 = .stored tbl (.precip r) →
        tbl = "precipitation_events"
        ∧ ∃ t rest, m.evt.getD [some 0] = some t :: rest
            ∧ r = { timestamp := fromtimestamp tz t,
                    device_id := m.device_id,
                    serial_number := m.serial_number }) := by
  constructor
  · intro tbl r hEq
    rw [process_message_snd] at hEq
    unfold dispatch at hEq
    split at hEq
    · rcases store_tempest_observation_shape tz sf m with h|h|⟨r',hsf,h⟩ <;>
        simp_all
    split at hEq
    · rcases store_air_observation_shape tz sf m with h|⟨r',hsf,h⟩ <;>
        simp_all
    split at hEq
    · rcases store_sky_observation_shape tz sf m with h|⟨r',hsf,h⟩ <;>
        simp_all
    split at hEq
    · rcases store_rapid_wind_shape tz sf m with h|h|⟨r',hsf,h⟩ <;>
        simp_all
    split at hEq
    · rcases store_precipitation_event_shape tz sf m with h|⟨r',hsf,h⟩ <;>
        simp_all
    split at hEq
    · exact store_lightning_strike_stored tz sf m tbl r hEq
    split at hEq
    · simp at hEq
    · simp at hEq
  · intro tbl r hEq
    rw [process_message_snd] at hEq
    unfold dispatch at hEq
    split at hEq
    · rcases store_tempest_observation_shape tz sf m with h|h|⟨r',hsf,h⟩ <;>
        simp_all
    split at hEq
    · rcases store_air_observation_shape tz sf m with h|⟨r',hsf,h⟩ <;>
        simp_all
    split at hEq
    · rcases store_sky_observation_shape tz sf m with h|⟨r',hsf,h⟩ <;>
        simp_all
    split at hEq
    · rcases store_rapid_wind_shape tz sf m with h|h|⟨r',hsf,h⟩ <;>
        simp_all
    split at hEq
    · exact store_precipitation_event_stored tz sf m tbl r hEq
    split at hEq
    · rcases store_lightning_strike_shape tz sf m with h|⟨r',hsf,h⟩ <;>
        simp_all
    split at hEq
    · simp at hEq
    · simp at hEq

/-- C9 witness: the theorem applied to a concrete stored lightning-strike
record. -/
theorem c9_event_records_witness :
    "lightning_strikes" = "lightning_strikes"
    ∧ ∃ t d e rest, strikeMsg.evt = some (some t :: d :: e :: rest)
        ∧ ({ timestamp := fromtimestamp 0 1700000000, device_id := some 7,
             serial_number := some "ST-00000001", distance := some 12,
             energy := some 5000 } : StrikeRecord)
          = { timestamp := fromtimestamp 0 t,
              device_id := strikeMsg.device_id,
              serial_number := strikeMsg.serial_number, distance := d,
              energy := e } :=
  (c9_event_records 0 false (initState false) strikeMsg).1
    "lightning_strikes"
    { timestamp := fromtimestamp 0 1700000000, device_id := some 7,
      serial_number := some "ST-00000001", distance := some 12,
      energy := some 5000 } rfl

/-! ## Claim C10 -/

theorem process_message_erase (tz : ℚ) (sf : Bool) (st : ClientState)
    (m : Message) (d : Option Int) :
    process_message tz sf { st with device_id := d } m
      = ({ (process_message tz sf st m).1 with device_id := d },
         (process_message tz sf st m).2) := by
  cases st
  rfl

theorem receive_loop_erase (tz : ℚ) (sf : Bool) (d : Option Int)
    (ms : List Message) : ∀ st : ClientState,
    receive_loop tz sf { st with device_id := d } ms
      = ({ (receive_loop tz sf st ms).1 with device_id := d },
         (receive_loop tz sf st ms).2.1, (receive_loop tz sf st ms).2.2) := by
  induction ms with
  | nil => intro st; rfl
  | cons m ms ih =>
    intro st
    simp only [receive_loop, process_message_erase]
    by_cases hc : ((process_message tz sf st m).1.run_once
        && (process_message tz sf st m).1.data_received) = true
    · simp [hc]
    · simp [hc, ih]

theorem connect_and_listen_erase (tz : ℚ) (sf : Bool) (d : Option Int)
    (ss : List Session) : ∀ st : ClientState,
    connect_and_listen tz sf { st with device_id := d } ss
      = ({ (connect_and_listen tz sf st ss).1 with device_id := d },
         (connect_and_listen tz sf st ss).2) := by
  induction ss with
  | nil => intro st; rfl
  | cons s ss ih =>
    intro st
    simp only [connect_and_listen, receive_loop_erase]
    by_cases hc : (receive_loop tz sf st s.messages).2.2 = true
    · simp [hc]
    · cases s.closure with
      | clean => simp [hc]
      | abnormal => simp [hc, ih]

theorem receive_loop_fst_device_id (tz : ℚ) (sf : Bool) (ms : List Message) :
    ∀ st : ClientState,
    (receive_loop tz sf st ms).1.device_id = st.device_id := by
  induction ms with
  | nil => intro st; rfl
  | cons m ms ih =>
    intro st
    simp only [receive_loop]
    by_cases hc : ((process_message tz sf st m).1.run_once
        && (process_message tz sf st m).1.data_received) = true
    · simp [hc, process_message_fst_device_id]
    · simp [hc, ih, process_message_fst_device_id]

theorem connect_and_listen_fst_device_id (tz : ℚ) (sf : Bool)
    (ss : List Session) : ∀ st : ClientState,
    (connect_and_listen tz sf st ss).1.device_id = st.device_id := by
  induction ss with
  | nil => intro st; rfl
  | cons s ss ih =>
    intro st
    simp only [connect_and_listen]
    by_cases hc : (receive_loop tz sf st s.messages).2.2 = true
    · simp [hc, receive_loop_fst_device_id]
    · cases s.closure with
      | clean => simp [hc, receive_loop_fst_device_id]
      | abnormal => simp [hc, ih, receive_loop_fst_device_id]

theorem receive_loop_trace_processed (tz : ℚ) (sf : Bool)
    (ms : List Message) : ∀ (st : ClientState) (e : TraceEvent),
    e ∈ (receive_loop tz sf st ms).2.1 → ∃ o, e = .processed o := by
  induction ms with
  | nil => intro st e he; simp [receive_loop] at he
  | cons m ms ih =>
    intro st e he
    simp only [receive_loop] at he
    by_cases hc : ((process_message tz sf st m).1.run_once
        && (process_message tz sf st m).1.data_received) = true
    · rw [if_pos hc] at he
      simp only [List.mem_singleton] at he
      exact ⟨_, he⟩
    · rw [if_neg hc] at he
      simp only [List.mem_cons] at he
      rcases he with rfl | he
      · exact ⟨_, rfl⟩
      · exact ih _ e he

theorem connect_subscribed_const (tz : ℚ) (sf : Bool) (ss : List Session) :
    ∀ (st : ClientState) (d : Int) (r : String),
    TraceEvent.subscribed d r ∈ (connect_and_listen tz sf st ss).2 →
    d = 469455 ∧ r = "tempest-listener" := by
  induction ss with
  | nil => intro st d r he; simp [connect_and_listen] at he
  | cons s ss ih =>
    intro st d r he
    simp only [connect_and_listen] at he
    by_cases hc : (receive_loop tz sf st s.messages).2.2 = true
    · rw [if_pos hc] at he
      simp only [List.mem_cons] at he
      rcases he with he | he
      · injection he with h1 h2
        exact ⟨h1, h2⟩
      · rcases receive_loop_trace_processed tz sf s.messages st _ he with
          ⟨o, ho⟩
        cases ho
    · rw [if_neg hc] at he
      cases hcl : s.closure with
      | clean =>
        rw [hcl] at he
        simp only [List.mem_cons] at he
        rcases he with he | he
        · injection he with h1 h2
          exact ⟨h1, h2⟩
        · rcases receive_loop_trace_processed tz sf s.messages st _ he with
            ⟨o, ho⟩
          cases ho
      | abnormal =>
        rw [hcl] at he
        simp only [List.cons_append, List.mem_cons, List.mem_append] at he
        rcases he with he | he | he | he
        · injection he with h1 h2
          exact ⟨h1, h2⟩
        · rcases receive_loop_trace_processed tz sf s.messages st _ he with
            ⟨o, ho⟩
          cases ho
        · cases he
        · exact ih _ d r he

/-- C10 (confirmed): the subscription frame sent after every (re)connect is
the hardcoded
`{"type": "listen_start", "device_id": 469455, "id": "tempest-listener"}`
regardless of state, configuration or session script; the client's
`device_id` attribute is initialised to `None` by the constructor and is
never mutated nor read by any operation (replacing it with any value
changes neither the trace nor the rest of the resulting state). -/
theorem c10_hardcoded_subscription :
    (∀ ro, (initState ro).device_id = none)
  ∧ (∀ (tz : ℚ) (sf : Bool) (st : ClientState) (m : Message),
        (process_message tz sf st m).1.device_id = st.device_id)
  ∧ (∀ (tz : ℚ) (sf : Bool) (st : ClientState) (ss : List Session),
        (connect_and_listen tz sf st ss).1.device_id = st.device_id)
  ∧ (∀ (tz : ℚ) (sf : Bool) (st : ClientState) (ss : List Session)
        (d : Int) (r : String),
        TraceEvent.subscribed d r ∈ (connect_and_listen tz sf st ss).2 →
        d = 469455 ∧ r = "tempest-listener")
  ∧ (∀ (tz : ℚ) (sf : Bool) (st : ClientState) (ss : List Session)
        (d : Option Int),
        connect_and_listen tz sf { st with device_id := d } ss
          = ({ (connect_and_listen tz sf st ss).1 with device_id := d },
             (connect_and_listen tz sf st ss).2)) :=
  ⟨fun _ => rfl,
   process_message_fst_device_id,
   fun tz sf st ss => connect_and_listen_fst_device_id tz sf ss st,
   fun tz sf st ss => connect_subscribed_const tz sf ss st,
   fun tz sf st ss d => connect_and_listen_erase tz sf d ss st⟩

/-- C10 witness: the subscription-constancy conjunct applied to the
subscription event of a concrete one-session run. -/
theorem c10_hardcoded_subscription_witness :
    (469455 : Int) = 469455 ∧ "tempest-listener" = "tempest-listener" :=
  c10_hardcoded_subscription.2.2.2.1 0 false (initState false)
    [{ messages := [], closure := .clean }] 469455 "tempest-listener"
    (by simp [connect_and_listen, receive_loop])

end TempestWeather
